import Mathlib

/-!
Verification development for the map_generator repository.

Part 1: shallow embedding of `src/utils/data_manager.py` (text/url/tag
normalization, the three-tier document store, structural validation, export
preparation) over a model of Python/JSON values, and of
`src/utils/map_utils.py` (haversine distance, bounds, zoom level, map config)
over the reals.
-/

/-- Model of a Python value as produced by `json.loads`: null, bool, float
(modelled as an exact rational), string, list, dict (association list in
insertion order; keys assumed unique, as `json.loads` keeps one binding per
key). -/
inductive JValue where
  | null
  | bool (b : Bool)
  | num (q : ℚ)
  | str (s : String)
  | arr (xs : List JValue)
  | obj (kvs : List (String × JValue))

namespace JValue

/-- Python truthiness (`bool(v)`): None, False, 0, "", [], {} are falsy. -/
def truthy : JValue → Bool
  | .null => false
  | .bool b => b
  | .num q => q != 0
  | .str s => s != ""
  | .arr xs => !xs.isEmpty
  | .obj kvs => !kvs.isEmpty

end JValue

/-- Characters Python's `str.strip()` and `\s` treat as whitespace (the ASCII
and Latin-1 part; the rare astral unicode space characters are not modelled,
no claim depends on them). -/
def isPySpace (c : Char) : Bool :=
  c = ' ' || c = '\t' || c = '\n' || c = '\r' || c = '\x0b' || c = '\x0c' ||
  c = '\x1c' || c = '\x1d' || c = '\x1e' || c = '\x1f' || c = '\x85' || c = '\xa0'

/-- Python `str.strip()`: drop leading and trailing whitespace. -/
def pystrip (l : List Char) : List Char :=
  ((l.dropWhile isPySpace).reverse.dropWhile isPySpace).reverse

/-- Scanner for one `re.sub` replacing each maximal run of characters
satisfying `p` by the single character `repl`; `inRun` records whether the
previous character belonged to a run. -/
def collapseRunsAux (p : Char → Bool) (repl : Char) : Bool → List Char → List Char
  | _, [] => []
  | inRun, c :: rest =>
    if p c then
      (if inRun then [] else [repl]) ++ collapseRunsAux p repl true rest
    else c :: collapseRunsAux p repl false rest

/-- One `re.sub` replacing each maximal run of characters satisfying `p` by
the single character `repl`: models `re.sub` with a character-class-plus
pattern, such as collapsing space runs or tab-class runs. -/
def collapseRuns (p : Char → Bool) (repl : Char) (l : List Char) : List Char :=
  collapseRunsAux p repl false l

/-- Scanner for the `re.sub` deleting space runs that follow a newline
(pattern: newline then one or more spaces, replaced by the newline);
`afterNL` records whether we are right after a newline (possibly with spaces
already dropped). -/
def dropSpacesAfterNLAux : Bool → List Char → List Char
  | _, [] => []
  | afterNL, c :: rest =>
    if c = '\n' then '\n' :: dropSpacesAfterNLAux true rest
    else if afterNL && c = ' ' then dropSpacesAfterNLAux true rest
    else c :: dropSpacesAfterNLAux false rest

/-- The `re.sub` deleting space runs that follow a newline. -/
def dropSpacesAfterNL (l : List Char) : List Char :=
  dropSpacesAfterNLAux false l

/-- Scanner for the `re.sub` deleting space runs immediately before a newline
(pattern: one or more spaces then a newline, replaced by the newline);
`pending` counts spaces seen whose fate depends on the next character. -/
def dropSpacesBeforeNLAux : Nat → List Char → List Char
  | pending, [] => List.replicate pending ' '
  | pending, c :: rest =>
    if c = ' ' then dropSpacesBeforeNLAux (pending + 1) rest
    else if c = '\n' then '\n' :: dropSpacesBeforeNLAux 0 rest
    else List.replicate pending ' ' ++ c :: dropSpacesBeforeNLAux 0 rest

/-- The `re.sub` deleting space runs immediately before a newline. -/
def dropSpacesBeforeNL (l : List Char) : List Char :=
  dropSpacesBeforeNLAux 0 l

/-- Scanner for the `re.sub` collapsing each run of three or more newlines to
exactly two; `count` is the length of the current newline run. -/
def collapseNL3Aux : Nat → List Char → List Char
  | count, [] => List.replicate (min count 2) '\n'
  | count, c :: rest =>
    if c = '\n' then collapseNL3Aux (count + 1) rest
    else List.replicate (min count 2) '\n' ++ c :: collapseNL3Aux 0 rest

/-- The `re.sub` collapsing each run of three or more newlines to exactly two
newlines. -/
def collapseNL3 (l : List Char) : List Char :=
  collapseNL3Aux 0 l

/-- `clean_text` from `src/utils/data_manager.py` (lines 30-49): strip, then
collapse space runs to one space, then replace runs of tab/CR/FF/VT by one
space, then delete spaces after and before newlines, then collapse 3+
newlines to two.  The guard `if not text` maps to the empty-string check;
`clean_text` is only invoked on strings at the embedded call sites. -/
def clean_text (s : String) : String :=
  if s = "" then ""
  else
    let l0 := pystrip s.toList
    let l1 := collapseRuns (· = ' ') ' ' l0
    let l2 := collapseRuns (fun c => c = '\t' || c = '\r' || c = '\x0c' || c = '\x0b') ' ' l1
    let l3 := dropSpacesAfterNL l2
    let l4 := dropSpacesBeforeNL l3
    let l5 := collapseNL3 l4
    String.mk l5

/-- Python `str(v)`.  Integral floats aside, the exact textual rendering of
non-string scalars is approximated (no embedded claim depends on it: the
call sites apply it to values that are strings or are only tested for
emptiness). -/
def pyStr : JValue → String
  | .str s => s
  | .num q => if q.den = 1 then toString q.num else toString q
  | .bool b => if b then "True" else "False"
  | .null => "None"
  | .arr _ => "<list>"
  | .obj _ => "<dict>"

/-- Numeric value of a digit character. -/
def digitVal (c : Char) : Nat := c.toNat - '0'.toNat

/-- Natural number denoted by a digit list. -/
def natOfDigits (l : List Char) : Nat := l.foldl (fun a c => 10 * a + digitVal c) 0

/-- Python `float(s)` on a string: strip, optional sign, decimal digits with
an optional fractional part.  Exponent notation, inf/nan and underscore
separators are not modelled (no claim involves them); unparsable strings are
`none` (a raised `ValueError`). -/
def parsePyFloat (s : String) : Option ℚ :=
  let l := pystrip s.toList
  let sign : ℚ := if l.head? = some '-' then -1 else 1
  let l1 := match l with
    | '+' :: r => r
    | '-' :: r => r
    | _ => l
  let ip := l1.takeWhile Char.isDigit
  let rest := l1.dropWhile Char.isDigit
  match rest with
  | [] => if ip.isEmpty then none else some (sign * (natOfDigits ip : ℚ))
  | '.' :: frac =>
    let fp := frac.takeWhile Char.isDigit
    let rest2 := frac.dropWhile Char.isDigit
    if rest2.isEmpty && !(ip.isEmpty && fp.isEmpty) then
      some (sign * ((natOfDigits ip : ℚ) + (natOfDigits fp : ℚ) / (10 : ℚ) ^ fp.length))
    else none
  | _ => none

/-- Python `float(v)`: floats pass through, bools are ints (True = 1.0),
strings are parsed, everything else raises (`none`). -/
def pyFloat : JValue → Option ℚ
  | .num q => some q
  | .bool b => some (if b then 1 else 0)
  | .str s => parsePyFloat s
  | _ => none

/-- Does the character list start with the given pattern list. -/
def startsWithChars : List Char → List Char → Bool
  | _, [] => true
  | [], _ :: _ => false
  | c :: l, p :: ps => c = p && startsWithChars l ps

/-- ASCII letter. -/
def isAsciiAlpha (c : Char) : Bool :=
  ('a' ≤ c && c ≤ 'z') || ('A' ≤ c && c ≤ 'Z')

/-- ASCII letter or digit (the regex class `[a-zA-Z0-9]`). -/
def isAsciiAlnum (c : Char) : Bool := isAsciiAlpha c || c.isDigit

/-- The regex class of domain-name characters: letters, digits, `-`, `.`. -/
def isDomainChar (c : Char) : Bool := isAsciiAlnum c || c = '-' || c = '.'

/-- Does the list start with an alnum, a dot, then two letters: the tail of
the `clean_url` domain pattern after its `[class]*` part. -/
def domainSuffixOk : List Char → Bool
  | c1 :: '.' :: a :: b :: _ => isAsciiAlnum c1 && isAsciiAlpha a && isAsciiAlpha b
  | _ => false

/-- Backtracking scan: some split of the list into a run of domain characters
followed by an alnum, a dot and two letters. -/
def domainScan : List Char → Bool
  | [] => false
  | c :: rest => domainSuffixOk (c :: rest) || (isDomainChar c && domainScan rest)

/-- `re.match` of `clean_url`'s domain pattern (an alnum, then domain
characters, then an alnum, a dot and at least two letters, as an anchored
match at the start of the string, rest unconstrained). -/
def matchesDomain : List Char → Bool
  | c0 :: rest => isAsciiAlnum c0 && domainScan rest
  | [] => false

/-- `clean_url` from `src/utils/data_manager.py` (lines 52-73): strip, remove
all whitespace, then prepend "https://" when the scheme is missing and the
remainder looks like a domain or starts with "www.". -/
def clean_url (url : String) : String :=
  if url = "" then ""
  else
    let stripped := pystrip url.toList
    if stripped.isEmpty then ""
    else
      let u := stripped.filter (fun c => !isPySpace c)
      if !u.isEmpty &&
         !(startsWithChars u "http://".toList || startsWithChars u "https://".toList) then
        if matchesDomain u then String.mk ("https://".toList ++ u)
        else if startsWithChars u "www.".toList then String.mk ("https://".toList ++ u)
        else String.mk u
      else String.mk u

/-- Python regex `$`: end of the string, or just before one final newline. -/
def dollarOk (rest : List Char) : Bool := rest.isEmpty || rest = ['\n']

/-- Tail of `validate_url`'s pattern after the host's final dot: at least two
letters, then nothing, or a `/`- or `?`-started path without interior
newlines (regex `.` does not match a newline). -/
def tldAndPathOk (B : List Char) : Bool :=
  let t := B.takeWhile isAsciiAlpha
  let rest := B.dropWhile isAsciiAlpha
  t.length ≥ 2 &&
    (dollarOk rest ||
      (match rest with
       | q :: tail => (q = '/' || q = '?') && dollarOk (tail.dropWhile (· ≠ '\n'))
       | [] => false))

/-- Backtracking scan of `validate_url`'s host part after its first
character: `prev` is the previously consumed character; a dot may close the
host when the last host character is an alnum. -/
def urlHostTail (prev : Char) : List Char → Bool
  | '.' :: B => (isAsciiAlnum prev && tldAndPathOk B) || urlHostTail '.' B
  | c :: rest => isDomainChar c && urlHostTail c rest
  | [] => false

/-- Host-and-path check of `validate_url` after the scheme. -/
def urlHostCheck : List Char → Bool
  | c0 :: rest => isAsciiAlnum c0 && urlHostTail c0 rest
  | [] => false

/-- `validate_url` from `src/utils/data_manager.py` (lines 76-87): the empty
URL is valid; otherwise the string must fully match
scheme://host.tld(path)?. -/
def validate_url (url : String) : Bool × String :=
  if url = "" then (true, "")
  else
    let l := url.toList
    let ok :=
      if startsWithChars l "https://".toList then urlHostCheck (l.drop 8)
      else if startsWithChars l "http://".toList then urlHostCheck (l.drop 7)
      else false
    if ok then (true, "")
    else (false, "URL格式不正确，请确保包含有效的协议(http://或https://)和域名")

/-- `clean_tags` from `src/utils/data_manager.py` (lines 90-102): keep the
cleaned non-empty string entries of a list; non-lists give `[]`. -/
def clean_tags : JValue → List JValue
  | .arr xs =>
    xs.filterMap fun t =>
      match t with
      | .str s =>
        let c := clean_text s
        if c = "" then none else some (.str c)
      | _ => none
  | _ => []

namespace DataManager

/-- First-match key lookup in a dict modelled as an association list. -/
def lookupKey : List (String × JValue) → String → Option JValue
  | [], _ => none
  | (k', v) :: rest, k => if k' = k then some v else lookupKey rest k

/-- Python dict assignment `d[k] = v`: replace the binding in place, or
append a new one. -/
def objSet : List (String × JValue) → String → JValue → List (String × JValue)
  | [], k, v => [(k, v)]
  | (k', v') :: rest, k, v =>
    if k' = k then (k, v) :: rest else (k', v') :: objSet rest k v

/-- `DataManager._create_empty_json` (lines 140-151). -/
def _create_empty_json : JValue :=
  .obj [("name", .str ""), ("description", .str ""), ("origin", .str ""),
        ("filter", .obj [("inclusive", .obj []), ("exclusive", .obj [])]),
        ("data", .arr [])]

/-- `DataManager._clean_data_item` (lines 169-202).  Key order follows the
Python dict build order: name, address, phone, webName, intro, webLink, tags,
center.  A raising `float(...)` is modelled as `none`; non-mapping items are
also modelled as failure (Python's substring `in` on them is not modelled). -/
def _clean_data_item (item : JValue) : Option JValue :=
  match item with
  | .obj kvs =>
    let strField : String → JValue := fun f =>
      match lookupKey kvs f with
      | some v => if v.truthy then .str (clean_text (pyStr v)) else .str ""
      | none => .str ""
    let webLinkV : JValue :=
      match lookupKey kvs "webLink" with
      | some v => if v.truthy then .str (clean_url (pyStr v)) else .str ""
      | none => .str ""
    let tagsV : JValue :=
      match lookupKey kvs "tags" with
      | some v => .arr (clean_tags v)
      | none => .arr []
    let centerV : Option JValue :=
      match lookupKey kvs "center" with
      | some (.obj ckvs) =>
        match pyFloat ((lookupKey ckvs "lat").getD (.num 0)),
              pyFloat ((lookupKey ckvs "lng").getD (.num 0)) with
        | some lat, some lng => some (.obj [("lat", .num lat), ("lng", .num lng)])
        | _, _ => none
      | _ => some (.obj [("lat", .num 0), ("lng", .num 0)])
    centerV.map fun cv =>
      .obj [("name", strField "name"), ("address", strField "address"),
            ("phone", strField "phone"), ("webName", strField "webName"),
            ("intro", strField "intro"), ("webLink", webLinkV),
            ("tags", tagsV), ("center", cv)]
  | _ => none

/-- `DataManager._clean_json_structure` (lines 204-225).  Starts from the
empty document, overwrites name/description/origin with cleaned truthy
inputs, copies mapping-valued filter sides, and cleans each data item.
Non-mapping inputs are modelled as failure. -/
def _clean_json_structure (json_data : JValue) : Option JValue :=
  match json_data with
  | .obj kvs =>
    let metaField : String → JValue := fun f =>
      match lookupKey kvs f with
      | some v => if v.truthy then .str (clean_text (pyStr v)) else .str ""
      | none => .str ""
    let filterV : JValue :=
      match lookupKey kvs "filter" with
      | some (.obj fkvs) =>
        let inc := match lookupKey fkvs "inclusive" with
          | some (.obj ikvs) => JValue.obj ikvs
          | _ => JValue.obj []
        let exc := match lookupKey fkvs "exclusive" with
          | some (.obj ekvs) => JValue.obj ekvs
          | _ => JValue.obj []
        .obj [("inclusive", inc), ("exclusive", exc)]
      | _ => .obj [("inclusive", .obj []), ("exclusive", .obj [])]
    let dataV : Option JValue :=
      match lookupKey kvs "data" with
      | some (.arr xs) => (xs.mapM _clean_data_item).map JValue.arr
      | _ => some (.arr [])
    dataV.map fun dv =>
      .obj [("name", metaField "name"), ("description", metaField "description"),
            ("origin", metaField "origin"), ("filter", filterV), ("data", dv)]
  | _ => none

/-- The session state owned by `DataManager` (`init_session_state`,
lines 122-138). -/
structure SessionState where
  extracted_text : String
  saved_json : JValue
  editing_json : JValue
  has_pending_edits : Bool

/-- The state created at session start. -/
def init_session_state : SessionState :=
  { extracted_text := "", saved_json := _create_empty_json,
    editing_json := _create_empty_json, has_pending_edits := false }

/-- `json.loads(json.dumps(v))`: a serialization round-trip used as deep
copy; on immutable model values it is the identity. -/
def json_roundtrip (v : JValue) : JValue := v

/-- `DataManager.set_saved_json` (lines 245-249). -/
def set_saved_json (st : SessionState) (json_data : JValue) : Option SessionState :=
  (_clean_json_structure json_data).map fun c =>
    { st with saved_json := c, has_pending_edits := false }

/-- `DataManager.set_editing_json` (lines 265-268). -/
def set_editing_json (st : SessionState) (json_data : JValue) : Option SessionState :=
  (_clean_json_structure json_data).map fun c =>
    { st with editing_json := c, has_pending_edits := true }

/-- `DataManager.has_saved_json` (lines 255-257): `bool(saved_json.get("data"))`. -/
def has_saved_json (st : SessionState) : Bool :=
  (match st.saved_json with
   | .obj kvs => (lookupKey kvs "data").getD .null
   | _ => .null).truthy

/-- `DataManager.has_pending_edits` (lines 283-285). -/
def has_pending_edits (st : SessionState) : Bool :=
  st.has_pending_edits

/-- `DataManager.start_editing` (lines 287-290). -/
def start_editing (st : SessionState) : SessionState :=
  { st with editing_json := json_roundtrip st.saved_json, has_pending_edits := false }

/-- `DataManager.apply_edits` (lines 292-295). -/
def apply_edits (st : SessionState) : SessionState :=
  { st with saved_json := json_roundtrip st.editing_json, has_pending_edits := false }

/-- `DataManager.discard_edits` (lines 297-300). -/
def discard_edits (st : SessionState) : SessionState :=
  { st with editing_json := json_roundtrip st.saved_json, has_pending_edits := false }

end DataManager

namespace DataManager

/-- First missing field of the required top-level five, in source order. -/
def firstMissingRequired (kvs : List (String × JValue)) : Option String :=
  ["name", "description", "origin", "filter", "data"].find?
    (fun f => (lookupKey kvs f).isNone)

/-- Is a value acceptable to `isinstance(v, (int, float))`: numbers, and
Python bools (which are ints). -/
def isPyNumber : JValue → Bool
  | .num _ => true
  | .bool _ => true
  | _ => false

/-- Error reported for data item `i` (0-based) by the per-item checks of
`DataManager.validate_json_structure` (lines 356-383), `none` when the item
passes. -/
def item_error (i : Nat) (item : JValue) : Option String :=
  match item with
  | .obj ikvs =>
    if (lookupKey ikvs "name").isNone then
      some ("数据项" ++ toString (i + 1) ++ "缺少必需的name字段")
    else
      let centerErr : Option String :=
        match lookupKey ikvs "center" with
        | some (.obj ckvs) =>
          let latBad := match lookupKey ckvs "lat" with
            | some v => !isPyNumber v
            | none => false
          let lngBad := match lookupKey ckvs "lng" with
            | some v => !isPyNumber v
            | none => false
          if latBad then some ("数据项" ++ toString (i + 1) ++ "的center.lat必须是数字")
          else if lngBad then some ("数据项" ++ toString (i + 1) ++ "的center.lng必须是数字")
          else none
        | some _ => some ("数据项" ++ toString (i + 1) ++ "的center必须是对象")
        | none => none
      match centerErr with
      | some e => some e
      | none =>
        let tagsErr : Option String :=
          match lookupKey ikvs "tags" with
          | some (.arr _) => none
          | some _ => some ("数据项" ++ toString (i + 1) ++ "的tags必须是数组")
          | none => none
        match tagsErr with
        | some e => some e
        | none =>
          match lookupKey ikvs "webLink" with
          | some v =>
            if v.truthy then
              match validate_url (pyStr v) with
              | (true, _) => none
              | (false, urlErr) =>
                some ("数据项" ++ toString (i + 1) ++ "的webLink无效：" ++ urlErr)
            else none
          | none => none
  | _ => some ("数据项" ++ toString (i + 1) ++ "必须是对象")

/-- First error over the data items, counting from index `i`. -/
def items_error : Nat → List JValue → Option String
  | _, [] => none
  | i, item :: rest =>
    match item_error i item with
    | some e => some e
    | none => items_error (i + 1) rest

/-- `DataManager.validate_json_structure` (lines 326-388): fail-fast
structural validation.  The unreachable fall-through branches (a required
field both present and absent) carry the `except` clause's generic message. -/
def validate_json_structure (json_data : JValue) : Bool × String :=
  match json_data with
  | .obj kvs =>
    match firstMissingRequired kvs with
    | some f => (false, "缺少必需字段：" ++ f)
    | none =>
      match lookupKey kvs "filter" with
      | some (.obj fkvs) =>
        if (lookupKey fkvs "inclusive").isNone || (lookupKey fkvs "exclusive").isNone then
          (false, "filter必须包含inclusive和exclusive字段")
        else
          let incObj := match lookupKey fkvs "inclusive" with
            | some (.obj _) => true
            | _ => false
          let excObj := match lookupKey fkvs "exclusive" with
            | some (.obj _) => true
            | _ => false
          if !incObj || !excObj then (false, "inclusive和exclusive必须是对象")
          else
            match lookupKey kvs "data" with
            | some (.arr xs) =>
              match items_error 0 xs with
              | some e => (false, e)
              | none => (true, "")
            | some _ => (false, "data字段必须是数组")
            | none => (false, "结构验证错误：")
      | some _ => (false, "filter字段必须是对象")
      | none => (false, "结构验证错误：")
  | _ => (false, "结构验证错误：")

/-- Python `v == 0` for a model value (`0` an int; bools are ints). -/
def pyEqZero : JValue → Bool
  | .num q => q = 0
  | .bool b => !b
  | _ => false

/-- Per-field cleaning of `_prepare_export_data`'s inner loop (lines
517-525): strings re-cleaned, `tags` lists through `clean_tags`, other lists
element-cleaned, then falsy list entries dropped. -/
def export_clean_value (key : String) (v : JValue) : JValue :=
  match v with
  | .str s => .str (clean_text s)
  | .arr xs =>
    let cleaned := if key = "tags" then clean_tags (.arr xs)
                   else xs.map fun w =>
                     match w with
                     | .str s => JValue.str (clean_text s)
                     | _ => w
    .arr (cleaned.filter (·.truthy))
  | _ => v

/-- The field-retention loop over one item's bindings: a cleaned value is
skipped when `remove_empty` holds and it is falsy (lines 517-531). -/
def export_item_fields (remove_empty : Bool) : List (String × JValue) → List (String × JValue)
  | [] => []
  | (k, v) :: rest =>
    let v' := export_clean_value k v
    if remove_empty && !v'.truthy then export_item_fields remove_empty rest
    else (k, v') :: export_item_fields remove_empty rest

/-- One item of `_prepare_export_data` (lines 514-540): `none` is a raised
exception (an item or its kept `center` not a mapping), `some none` a dropped
item, `some (some it)` a kept cleaned item. -/
def export_process_item (remove_empty remove_zero : Bool) (item : JValue) :
    Option (Option JValue) :=
  match item with
  | .obj kvs =>
    let ci := export_item_fields remove_empty kvs
    let keepNonEmpty : Option JValue := if ci.isEmpty then none else some (.obj ci)
    if remove_zero then
      match lookupKey ci "center" with
      | some (.obj ckvs) =>
        if pyEqZero ((lookupKey ckvs "lat").getD (.num 0)) &&
           pyEqZero ((lookupKey ckvs "lng").getD (.num 0)) then some none
        else some keepNonEmpty
      | some _ => none
      | none => some none
    else some keepNonEmpty
  | _ => none

/-- The data loop of `_prepare_export_data`: clean every item, drop the
skipped ones, propagate exceptions. -/
def exportDataLoop (remove_empty remove_zero : Bool) : List JValue → Option (List JValue)
  | [] => some []
  | it :: rest => do
    let r ← export_process_item remove_empty remove_zero it
    let tail ← exportDataLoop remove_empty remove_zero rest
    match r with
    | some v => pure (v :: tail)
    | none => pure tail

/-- `DataManager._prepare_export_data` (lines 509-543): deep-copy (identity
on the model), rebuild the data list, assign it back.  Iterating a non-list
`data` is modelled as failure. -/
def _prepare_export_data (json_data : JValue) (remove_empty remove_zero : Bool) :
    Option JValue :=
  match json_data with
  | .obj kvs =>
    let items : Option (List JValue) :=
      match lookupKey kvs "data" with
      | some (.arr xs) => some xs
      | none => some []
      | some _ => none
    match items with
    | some xs =>
      (exportDataLoop remove_empty remove_zero xs).map fun cd =>
        .obj (objSet kvs "data" (.arr cd))
    | none => none
  | _ => none

end DataManager

namespace MapUtils

/-- A point as consumed by `src/utils/map_utils.py`: its `center` coordinates.
A missing `center` key defaults both gets to 0, which coincides with the
(0,0) sentinel, so a point is modelled by the two coordinates. -/
structure MapPoint where
  lat : ℝ
  lng : ℝ

/-- `MapUtils.ZOOM_DISTANCE_MAP` (lines 14-33), in ascending key order (the
insertion order, which is also `sorted(keys)`). -/
def ZOOM_DISTANCE_MAP : List (ℕ × ℝ) :=
  [(3, 1000000), (4, 500000), (5, 200000), (6, 100000), (7, 50000), (8, 25000),
   (9, 20000), (10, 10000), (11, 5000), (12, 2000), (13, 1000), (14, 500),
   (15, 200), (16, 100), (17, 50), (18, 20), (19, 10), (20, 5)]

/-- `math.radians`. -/
noncomputable def radians (x : ℝ) : ℝ := x * Real.pi / 180

/-- `math.atan2(y, x)` with the C/IEEE branch conventions. -/
noncomputable def atan2 (y x : ℝ) : ℝ :=
  if 0 < x then Real.arctan (y / x)
  else if x < 0 ∧ 0 ≤ y then Real.arctan (y / x) + Real.pi
  else if x < 0 then Real.arctan (y / x) - Real.pi
  else if 0 < y then Real.pi / 2
  else if y < 0 then -(Real.pi / 2)
  else 0

/-- `MapUtils.calculate_distance` (lines 35-63): haversine distance with
Earth radius 6371000 m. -/
noncomputable def calculate_distance (lat1 lng1 lat2 lng2 : ℝ) : ℝ :=
  let R : ℝ := 6371000
  let lat1_rad := radians lat1
  let lat2_rad := radians lat2
  let delta_lat := radians (lat2 - lat1)
  let delta_lng := radians (lng2 - lng1)
  let a := Real.sin (delta_lat / 2) ^ 2 +
    Real.cos lat1_rad * Real.cos lat2_rad * Real.sin (delta_lng / 2) ^ 2
  let c := 2 * atan2 (Real.sqrt a) (Real.sqrt (1 - a))
  R * c

/-- The validity filter shared by `calculate_center` and `calculate_bounds`
(lines 78-85 and 113-120): non-zero coordinates within range. -/
def validCoord (p : MapPoint) : Prop :=
  p.lat ≠ 0 ∧ p.lng ≠ 0 ∧ -90 ≤ p.lat ∧ p.lat ≤ 90 ∧ -180 ≤ p.lng ∧ p.lng ≤ 180

noncomputable instance : DecidablePred validCoord := fun p => by
  unfold validCoord; infer_instance

/-- The `valid_points` list built by `calculate_center`/`calculate_bounds`. -/
noncomputable def validPoints : List MapPoint → List MapPoint
  | [] => []
  | p :: ps => if validCoord p then p :: validPoints ps else validPoints ps

/-- `MapUtils.calculate_center` (lines 65-98): average of the valid points,
`none` when there is no valid point. -/
noncomputable def calculate_center (points : List MapPoint) : Option MapPoint :=
  match validPoints points with
  | [] => none
  | p :: ps =>
    let vp := p :: ps
    some ⟨(vp.map MapPoint.lat).sum / vp.length, (vp.map MapPoint.lng).sum / vp.length⟩

/-- The bounding box of `calculate_bounds`. -/
structure BoundsBox where
  min_lat : ℝ
  max_lat : ℝ
  min_lng : ℝ
  max_lng : ℝ

/-- `MapUtils.calculate_bounds` (lines 100-133): min/max per axis over the
valid points, `none` when there is no valid point. -/
noncomputable def calculate_bounds (points : List MapPoint) : Option BoundsBox :=
  match validPoints points with
  | [] => none
  | p :: ps =>
    some { min_lat := (ps.map MapPoint.lat).foldl min p.lat,
           max_lat := (ps.map MapPoint.lat).foldl max p.lat,
           min_lng := (ps.map MapPoint.lng).foldl min p.lng,
           max_lng := (ps.map MapPoint.lng).foldl max p.lng }

/-- The laxer `valid_points` filter used inside `calculate_zoom_level`
(line 152): only `lat != 0` is required. -/
noncomputable def latNonzeroPoints : List MapPoint → List MapPoint
  | [] => []
  | p :: ps => if p.lat ≠ 0 then p :: latNonzeroPoints ps else latNonzeroPoints ps

/-- The scan over `sorted(ZOOM_DISTANCE_MAP.keys())` (lines 167-168):
first level whose capacity covers the required distance. -/
noncomputable def zoomScan (required : ℝ) : List (ℕ × ℝ) → Option ℕ
  | [] => none
  | (z, d) :: rest => if required ≤ d then some z else zoomScan required rest

/-- `MapUtils.calculate_zoom_level` (lines 135-171). -/
noncomputable def calculate_zoom_level (points : List MapPoint) (padding_factor : ℝ) : ℤ :=
  match calculate_bounds points with
  | none => 15
  | some bounds =>
    if (latNonzeroPoints points).length ≤ 1 then 16
    else
      let diagonal := calculate_distance bounds.min_lat bounds.min_lng
        bounds.max_lat bounds.max_lng
      let required := diagonal * padding_factor
      match zoomScan required ZOOM_DISTANCE_MAP with
      | some z => max 10 (z : ℤ)
      | none => 15

/-- `MapUtils.calculate_map_config` (lines 173-209); the zoom triple is
(initial, min, max).  The default padding factor 1.5 is used for the base
zoom. -/
noncomputable def calculate_map_config (points : List MapPoint)
    (initial_zoom_offset min_zoom_offset max_zoom_offset : ℤ) :
    MapPoint × (ℤ × ℤ × ℤ) :=
  let center := (calculate_center points).getD ⟨31.230416, 121.473701⟩
  let base_zoom := calculate_zoom_level points 1.5
  let initial_zoom := max 3 (min 20 (base_zoom + initial_zoom_offset))
  let min_zoom0 := max 3 (min 20 (base_zoom + min_zoom_offset))
  let max_zoom0 := max 3 (min 20 (base_zoom + max_zoom_offset))
  let min_zoom := min min_zoom0 initial_zoom
  let max_zoom := max max_zoom0 initial_zoom
  (center, (initial_zoom, min_zoom, max_zoom))

end MapUtils

/-!  Helper accessors for stating properties, and the concrete documents used
by witnesses and counterexamples. -/

/-- Value at key `k` of a JSON object, `.null` when absent or not an object. -/
def jGet (v : JValue) (k : String) : JValue :=
  match v with
  | .obj kvs => (DataManager.lookupKey kvs k).getD .null
  | _ => .null

/-- The `data` list of a document, `[]` when absent or not a list. -/
def jItems (v : JValue) : List JValue :=
  match jGet v "data" with
  | .arr xs => xs
  | _ => []

/-- An item whose `center` is out of range: lat 95, lng 10. -/
def ITEM95 : JValue := .obj [("center", .obj [("lat", .num 95), ("lng", .num 10)])]

/-- The normalized form of `ITEM95`. -/
def ITEM95C : JValue :=
  .obj [("name", .str ""), ("address", .str ""), ("phone", .str ""),
        ("webName", .str ""), ("intro", .str ""), ("webLink", .str ""),
        ("tags", .arr []), ("center", .obj [("lat", .num 95), ("lng", .num 10)])]

/-- A document whose single item is `ITEM95`. -/
def DOC95 : JValue := .obj [("name", .str "m"), ("data", .arr [ITEM95])]

/-- The session state after `set_saved_json DOC95` from the initial state. -/
def ST95 : DataManager.SessionState :=
  { DataManager.init_session_state with
    saved_json := .obj [("name", .str "m"), ("description", .str ""), ("origin", .str ""),
      ("filter", .obj [("inclusive", .obj []), ("exclusive", .obj [])]),
      ("data", .arr [ITEM95C])],
    has_pending_edits := false }

/-- An item whose name holds a tab followed by a space. -/
def ITEM_TAB : JValue := .obj [("name", .str "a\t b")]

/-- `ITEM_TAB` after one normalization: the name keeps a double space. -/
def ITEM_TAB1 : JValue :=
  .obj [("name", .str "a  b"), ("address", .str ""), ("phone", .str ""),
        ("webName", .str ""), ("intro", .str ""), ("webLink", .str ""),
        ("tags", .arr []), ("center", .obj [("lat", .num 0), ("lng", .num 0)])]

/-- `ITEM_TAB` after two normalizations: the double space has collapsed. -/
def ITEM_TAB2 : JValue :=
  .obj [("name", .str "a b"), ("address", .str ""), ("phone", .str ""),
        ("webName", .str ""), ("intro", .str ""), ("webLink", .str ""),
        ("tags", .arr []), ("center", .obj [("lat", .num 0), ("lng", .num 0)])]

/-- A small document for the commit-flow witness. -/
def D0 : JValue := .obj [("name", .str "Map A"), ("data", .arr [])]

/-- The normalized form of `D0`. -/
def CLEAN_D0 : JValue :=
  .obj [("name", .str "Map A"), ("description", .str ""), ("origin", .str ""),
        ("filter", .obj [("inclusive", .obj []), ("exclusive", .obj [])]),
        ("data", .arr [])]

/-- The state after `set_editing_json D0` from the initial state. -/
def ST1C : DataManager.SessionState :=
  { DataManager.init_session_state with
    editing_json := CLEAN_D0, has_pending_edits := true }

/-- A document with four of the five required fields and no `data`. -/
def DOC_NODATA : JValue :=
  .obj [("name", .str "n"), ("description", .str "d"), ("origin", .str "o"),
        ("filter", .obj [("inclusive", .obj []), ("exclusive", .obj [])])]

/-- A saved document with non-empty metadata and an empty data list. -/
def DOC_META_ONLY : JValue :=
  .obj [("name", .str "My Map"), ("description", .str "All the sights"),
        ("origin", .str "guidebook"),
        ("filter", .obj [("inclusive", .obj [("k", .arr [.str "t"])]), ("exclusive", .obj [])]),
        ("data", .arr [])]

/-- A document exercised by the export witness: one all-empty-fields item
with the zero center, one item with a phone and a real center. -/
def DOC_EXPORT : JValue :=
  .obj [("name", .str "n"), ("description", .str "d"), ("origin", .str "o"),
        ("filter", .obj [("inclusive", .obj []), ("exclusive", .obj [])]),
        ("data", .arr [
          .obj [("name", .str "x"), ("phone", .str ""),
                ("center", .obj [("lat", .num 0), ("lng", .num 0)])],
          .obj [("name", .str "y"), ("phone", .str "123"),
                ("center", .obj [("lat", .num 1), ("lng", .num 2)])]])]

/-- Does `hay` contain `pat` as a contiguous substring. -/
def containsSub (hay pat : List Char) : Bool :=
  match hay with
  | [] => pat.isEmpty
  | _ :: rest => startsWithChars hay pat || containsSub rest pat

/-- The claimed shape of a normalized location item: all eight fields
present. -/
def item_well_formed (v : JValue) : Bool :=
  match v with
  | .obj kvs =>
    ["name", "address", "phone", "webName", "webLink", "intro", "tags", "center"].all
      (fun k => (DataManager.lookupKey kvs k).isSome)
  | _ => false

/-- The claimed shape of a document's filter: `inclusive` and `exclusive`
present as mappings. -/
def filter_well_formed : JValue → Bool
  | .obj fkvs =>
    (match DataManager.lookupKey fkvs "inclusive" with
     | some (.obj _) => true
     | _ => false) &&
    (match DataManager.lookupKey fkvs "exclusive" with
     | some (.obj _) => true
     | _ => false)
  | _ => false

/-- The claimed shape of a normalized document: the five top-level fields
present, a well-formed filter, and a data list of well-formed items. -/
def doc_well_formed (v : JValue) : Bool :=
  match v with
  | .obj kvs =>
    (DataManager.lookupKey kvs "name").isSome &&
    (DataManager.lookupKey kvs "description").isSome &&
    (DataManager.lookupKey kvs "origin").isSome &&
    (match DataManager.lookupKey kvs "filter" with
     | some fv => filter_well_formed fv
     | none => false) &&
    (match DataManager.lookupKey kvs "data" with
     | some (.arr xs) => xs.all item_well_formed
     | _ => false)
  | _ => false

/-- The session state whose saved document is the normalized
`DOC_META_ONLY`. -/
def ST_META : DataManager.SessionState :=
  { DataManager.init_session_state with saved_json := DOC_META_ONLY }

/-- The export of `DOC_EXPORT` with both flags on: the zero-center item is
gone, the empty `phone` key of the other item is gone, metadata intact. -/
def EXPORTED : JValue :=
  .obj [("name", .str "n"), ("description", .str "d"), ("origin", .str "o"),
        ("filter", .obj [("inclusive", .obj []), ("exclusive", .obj [])]),
        ("data", .arr [
          .obj [("name", .str "y"), ("phone", .str "123"),
                ("center", .obj [("lat", .num 1), ("lng", .num 2)])]])]

/-- The claim's description of the zoom-table lookup: `L` is the smallest
level of the table whose distance capacity still covers `d`. -/
def IsLeastCoveringLevel (d : ℝ) (L : ℕ) : Prop :=
  (∃ c, (L, c) ∈ MapUtils.ZOOM_DISTANCE_MAP ∧ d ≤ c) ∧
  ∀ L' c', (L', c') ∈ MapUtils.ZOOM_DISTANCE_MAP → d ≤ c' → L ≤ L'

/-- A valid point at lat 30, lng 121. -/
def P30 : MapUtils.MapPoint := ⟨30, 121⟩

/-- A valid point 0.9 degrees of latitude (about 100 km) north of `P30`. -/
def P309 : MapUtils.MapPoint := ⟨30.9, 121⟩

/-- A valid point 0.0009 degrees of latitude (about 100 m) north of `P30`. -/
def P30M : MapUtils.MapPoint := ⟨30.0009, 121⟩

/-- An invalid point: latitude 200 is out of range (but non-zero). -/
def PBAD : MapUtils.MapPoint := ⟨200, 50⟩

/-- Two valid points about 100 km apart on the same meridian. -/
def PTS100KM : List MapUtils.MapPoint := [P30, P309]

/-- Two valid points about 100 m apart on the same meridian. -/
def PTS100M : List MapUtils.MapPoint := [P30, P30M]

/-- A list with exactly one valid point plus an out-of-range point whose
latitude is non-zero. -/
def PTS_ONEVALID : List MapUtils.MapPoint := [P30, PBAD]

/-- The bounding box of `PTS100KM`. -/
def BOUNDS100KM : MapUtils.BoundsBox := ⟨30, 30.9, 121, 121⟩

/-!  Theorems for the claims. -/

/-- C5: from every session state, `start_editing` followed by
`discard_edits` leaves the editing document structurally equal to the saved
document, leaves the saved document unchanged, and clears the
pending-edits flag. -/
theorem C5_start_then_discard (st : DataManager.SessionState) :
    (DataManager.discard_edits (DataManager.start_editing st)).editing_json =
      (DataManager.discard_edits (DataManager.start_editing st)).saved_json ∧
    (DataManager.discard_edits (DataManager.start_editing st)).saved_json = st.saved_json ∧
    DataManager.has_pending_edits (DataManager.discard_edits (DataManager.start_editing st)) =
      false :=
  ⟨rfl, rfl, rfl⟩

/-- C4: for every document `D` that normalizes to `c`, `set_editing_json D`
succeeds, and `apply_edits` on the resulting state leaves the saved document
equal to `c` (the same normalization every document write applies) with the
pending-edits flag cleared. -/
theorem C4_set_editing_then_apply (st : DataManager.SessionState) (D c : JValue)
    (st1 : DataManager.SessionState)
    (hc : DataManager._clean_json_structure D = some c)
    (h : DataManager.set_editing_json st D = some st1) :
    (DataManager.apply_edits st1).saved_json = c ∧
    DataManager.has_pending_edits (DataManager.apply_edits st1) = false := by
  unfold DataManager.set_editing_json at h
  rw [hc] at h
  simp only [Option.map_some', Option.some.injEq] at h
  subst h
  exact ⟨rfl, rfl⟩

/-- Witness for C4 at the concrete document `D0`. -/
theorem C4_witness :
    (DataManager.apply_edits ST1C).saved_json = CLEAN_D0 ∧
    DataManager.has_pending_edits (DataManager.apply_edits ST1C) = false :=
  C4_set_editing_then_apply DataManager.init_session_state D0 CLEAN_D0 ST1C rfl rfl

/-- C6: the code is not idempotent: `clean_text` collapses space runs before
converting tab-class characters to spaces, so cleaning "a⟨tab⟩ b" yields
"a  b" with a double space (contradicting the function's own stated purpose
of replacing consecutive spaces by a single space), and a second cleaning
changes it again to "a b"; likewise at the item level. -/
theorem C6_clean_text_not_idempotent :
    clean_text "a\t b" = "a  b" ∧
    clean_text (clean_text "a\t b") = "a b" ∧
    clean_text (clean_text "a\t b") ≠ clean_text "a\t b" ∧
    DataManager._clean_data_item ITEM_TAB = some ITEM_TAB1 ∧
    DataManager._clean_data_item ITEM_TAB1 = some ITEM_TAB2 ∧
    DataManager._clean_data_item ITEM_TAB1 ≠ DataManager._clean_data_item ITEM_TAB :=
  ⟨rfl, rfl, by decide, rfl, rfl, by
    intro h
    rw [show DataManager._clean_data_item ITEM_TAB1 = some ITEM_TAB2 from rfl,
        show DataManager._clean_data_item ITEM_TAB = some ITEM_TAB1 from rfl] at h
    simp [ITEM_TAB1, ITEM_TAB2] at h⟩

/-- C2 counterexample: normalizing a document whose item has the
out-of-range center lat 95, lng 10 stores that center unchanged rather than
resetting it to the sentinel lat 0, lng 0. -/
theorem C2_counterexample :
    DataManager.set_saved_json DataManager.init_session_state DOC95 = some ST95 ∧
    jItems ST95.saved_json = [ITEM95C] ∧
    jGet ITEM95C "center" = .obj [("lat", .num 95), ("lng", .num 10)] ∧
    jGet ITEM95C "center" ≠ .obj [("lat", .num 0), ("lng", .num 0)] :=
  ⟨rfl, rfl, rfl, by simp [jGet, ITEM95C, DataManager.lookupKey]⟩

/-- C2 amended: item normalization keeps a mapping center's numeric lat/lng
values as floats, even when out of range; the whole center is reset to the
lat 0, lng 0 sentinel only when `center` is absent (or not a mapping). -/
theorem C2_center_not_range_checked (kvs : List (String × JValue)) :
    (∀ (ckvs : List (String × JValue)) (lat lng : ℚ),
      DataManager.lookupKey kvs "center" = some (.obj ckvs) →
      DataManager.lookupKey ckvs "lat" = some (.num lat) →
      DataManager.lookupKey ckvs "lng" = some (.num lng) →
      Option.map (fun v => jGet v "center") (DataManager._clean_data_item (.obj kvs)) =
        some (.obj [("lat", .num lat), ("lng", .num lng)])) ∧
    (DataManager.lookupKey kvs "center" = none →
      Option.map (fun v => jGet v "center") (DataManager._clean_data_item (.obj kvs)) =
        some (.obj [("lat", .num 0), ("lng", .num 0)])) := by
  constructor
  · intro ckvs lat lng hc hlat hlng
    simp only [DataManager._clean_data_item]
    rw [hc]
    dsimp only
    rw [hlat, hlng]
    simp [jGet, DataManager.lookupKey, pyFloat]
  · intro hc
    simp only [DataManager._clean_data_item]
    rw [hc]
    simp [jGet, DataManager.lookupKey]

/-- Witness for the amended C2 at the lat 95, lng 10 item. -/
theorem C2_witness :
    Option.map (fun v => jGet v "center")
        (DataManager._clean_data_item (.obj [("center", .obj [("lat", .num 95), ("lng", .num 10)])])) =
      some (.obj [("lat", .num 95), ("lng", .num 10)]) :=
  (C2_center_not_range_checked [("center", .obj [("lat", .num 95), ("lng", .num 10)])]).1
    [("lat", .num 95), ("lng", .num 10)] 95 10 rfl rfl rfl

/-- C10: `has_saved_json` is `bool(saved_json.get("data"))`: true exactly
when the saved document's data list is non-empty; in particular a saved
document with non-empty metadata but zero items reports as having no saved
document. -/
theorem C10_has_saved_iff_items (st : DataManager.SessionState) :
    (∀ (kvs : List (String × JValue)) (xs : List JValue),
      st.saved_json = .obj kvs →
      DataManager.lookupKey kvs "data" = some (.arr xs) →
      (DataManager.has_saved_json st = true ↔ xs ≠ [])) ∧
    (DataManager.set_saved_json DataManager.init_session_state DOC_META_ONLY = some ST_META ∧
     DataManager.has_saved_json ST_META = false) := by
  refine ⟨fun kvs xs h1 h2 => ?_, rfl, rfl⟩
  unfold DataManager.has_saved_json
  rw [h1]
  dsimp only
  rw [h2]
  cases xs <;> simp [JValue.truthy, Option.getD]

/-- Witness for C10 at the concrete state holding one item. -/
theorem C10_witness : DataManager.has_saved_json ST95 = true :=
  ((C10_has_saved_iff_items ST95).1
    [("name", .str "m"), ("description", .str ""), ("origin", .str ""),
     ("filter", .obj [("inclusive", .obj []), ("exclusive", .obj [])]),
     ("data", .arr [ITEM95C])] [ITEM95C] rfl rfl).mpr (by simp)

/-- C7 counterexample: the empty document is missing `data`, yet
`validate_json_structure` reports the missing `name` field, a message that
does not name `data`. -/
theorem C7_counterexample :
    DataManager.validate_json_structure (.obj []) = (false, "缺少必需字段：name") ∧
    containsSub "缺少必需字段：name".toList "data".toList = false :=
  ⟨rfl, rfl⟩

/-- C7 amended: a parsed document missing `data` fails structural validation
with the missing-`data` message, regardless of any other defect, provided
the four earlier required fields (name, description, origin, filter) are
present; when an earlier required field is also missing, the message names
the first missing field in source order instead. -/
theorem C7_missing_data_message (kvs : List (String × JValue))
    (hd : DataManager.lookupKey kvs "data" = none)
    (hn : (DataManager.lookupKey kvs "name").isSome = true)
    (hdesc : (DataManager.lookupKey kvs "description").isSome = true)
    (ho : (DataManager.lookupKey kvs "origin").isSome = true)
    (hf : (DataManager.lookupKey kvs "filter").isSome = true) :
    DataManager.validate_json_structure (.obj kvs) = (false, "缺少必需字段：data") ∧
    containsSub "缺少必需字段：data".toList "data".toList = true := by
  obtain ⟨vn, hvn⟩ := Option.isSome_iff_exists.mp hn
  obtain ⟨vd, hvd⟩ := Option.isSome_iff_exists.mp hdesc
  obtain ⟨vo, hvo⟩ := Option.isSome_iff_exists.mp ho
  obtain ⟨vf, hvf⟩ := Option.isSome_iff_exists.mp hf
  have hfm : DataManager.firstMissingRequired kvs = some "data" := by
    unfold DataManager.firstMissingRequired
    simp only [List.find?]
    rw [hvn, hvd, hvo, hvf, hd]
    rfl
  refine ⟨?_, rfl⟩
  simp only [DataManager.validate_json_structure, hfm]
  rfl

/-- Witness for the amended C7 at the concrete document `DOC_NODATA`. -/
theorem C7_witness :
    DataManager.validate_json_structure DOC_NODATA = (false, "缺少必需字段：data") ∧
    containsSub "缺少必需字段：data".toList "data".toList = true :=
  C7_missing_data_message
    [("name", .str "n"), ("description", .str "d"), ("origin", .str "o"),
     ("filter", .obj [("inclusive", .obj []), ("exclusive", .obj [])])]
    rfl rfl rfl rfl rfl

/-- Every successfully cleaned item carries all eight fields. -/
theorem clean_item_wf (it c : JValue) (h : DataManager._clean_data_item it = some c) :
    item_well_formed c = true := by
  cases it <;> simp only [DataManager._clean_data_item] at h
  case obj kvs =>
    rw [Option.map_eq_some'] at h
    obtain ⟨cv, _, hc⟩ := h
    subst hc
    simp [item_well_formed, DataManager.lookupKey]
  all_goals simp at h

/-- Items surviving `mapM` cleaning are all well-formed. -/
theorem mapM_clean_items_wf (xs : List JValue) : ∀ ys : List JValue,
    xs.mapM DataManager._clean_data_item = some ys → ys.all item_well_formed = true := by
  induction xs with
  | nil =>
    intro ys h
    simp only [List.mapM_nil, pure, Option.some.injEq] at h
    subst h
    rfl
  | cons x xs ih =>
    intro ys h
    rw [List.mapM_cons] at h
    simp only [bind, Option.bind_eq_some, pure, Option.some.injEq] at h
    obtain ⟨c, hc, rest, hrest, hys⟩ := h
    subst hys
    simp [List.all_cons, clean_item_wf x c hc, ih rest hrest]

/-- A five-field document built with a well-formed filter and well-formed
items is well-formed. -/
theorem doc_build_wf (n d o fv dv : JValue) (hf : filter_well_formed fv = true)
    (hd : ∃ xs, dv = .arr xs ∧ xs.all item_well_formed = true) :
    doc_well_formed (.obj [("name", n), ("description", d), ("origin", o),
      ("filter", fv), ("data", dv)]) = true := by
  obtain ⟨xs, rfl, hxs⟩ := hd
  simp [doc_well_formed, DataManager.lookupKey, hf, hxs]

/-- Every successfully cleaned document is well-formed: five fields, a
well-formed filter, well-formed items. -/
theorem clean_json_wf (d c : JValue) (h : DataManager._clean_json_structure d = some c) :
    doc_well_formed c = true := by
  cases d <;> simp only [DataManager._clean_json_structure] at h
  case obj kvs =>
    rw [Option.map_eq_some'] at h
    obtain ⟨dv, hdv, hc⟩ := h
    subst hc
    have hlem : ∀ i e : JValue, (∃ ik, i = .obj ik) → (∃ ek, e = .obj ek) →
        filter_well_formed (.obj [("inclusive", i), ("exclusive", e)]) = true := by
      rintro _ _ ⟨ik, rfl⟩ ⟨ek, rfl⟩
      rfl
    apply doc_build_wf
    · split
      · exact hlem _ _ (by split <;> exact ⟨_, rfl⟩) (by split <;> exact ⟨_, rfl⟩)
      · rfl
    · split at hdv
      · rw [Option.map_eq_some'] at hdv
        obtain ⟨ys, hys, hdv2⟩ := hdv
        exact ⟨ys, hdv2.symm, mapM_clean_items_wf _ _ hys⟩
      · exact ⟨[], by injection hdv with h2; exact h2.symm, rfl⟩
  all_goals simp at h

/-- C3: at session start both tiers are well-formed (five top-level fields,
filter sides present as mappings, every item carrying all eight fields), and
every successful `set_saved_json`/`set_editing_json` call re-establishes the
property for both tiers (the untouched tier keeping it). -/
theorem C3_tiers_well_formed :
    (doc_well_formed DataManager.init_session_state.saved_json = true ∧
     doc_well_formed DataManager.init_session_state.editing_json = true) ∧
    (∀ (st : DataManager.SessionState) (D : JValue) (st' : DataManager.SessionState),
      DataManager.set_saved_json st D = some st' →
      doc_well_formed st.editing_json = true →
      doc_well_formed st'.saved_json = true ∧ doc_well_formed st'.editing_json = true) ∧
    (∀ (st : DataManager.SessionState) (D : JValue) (st' : DataManager.SessionState),
      DataManager.set_editing_json st D = some st' →
      doc_well_formed st.saved_json = true →
      doc_well_formed st'.saved_json = true ∧ doc_well_formed st'.editing_json = true) := by
  refine ⟨⟨rfl, rfl⟩, ?_, ?_⟩
  · intro st D st' h hed
    unfold DataManager.set_saved_json at h
    rw [Option.map_eq_some'] at h
    obtain ⟨c, hc, hst⟩ := h
    subst hst
    exact ⟨clean_json_wf D c hc, hed⟩
  · intro st D st' h hsv
    unfold DataManager.set_editing_json at h
    rw [Option.map_eq_some'] at h
    obtain ⟨c, hc, hst⟩ := h
    subst hst
    exact ⟨hsv, clean_json_wf D c hc⟩

/-- Witness for C3 at the concrete write of `DOC95` from the initial state. -/
theorem C3_witness :
    doc_well_formed ST95.saved_json = true ∧ doc_well_formed ST95.editing_json = true :=
  C3_tiers_well_formed.2.1 DataManager.init_session_state DOC95 ST95 rfl rfl

/-- With `remove_empty`, every field kept by the export field loop has a
truthy (non-empty) value. -/
theorem export_fields_truthy (kvs : List (String × JValue)) :
    ∀ k v, (k, v) ∈ DataManager.export_item_fields true kvs → v.truthy = true := by
  induction kvs with
  | nil => intro k v h; simp [DataManager.export_item_fields] at h
  | cons kv rest ih =>
    obtain ⟨k0, v0⟩ := kv
    intro k v h
    simp only [DataManager.export_item_fields] at h
    split at h
    · exact ih k v h
    · rename_i hcond
      rcases List.mem_cons.mp h with h1 | h1
      · obtain ⟨hk, hv⟩ := Prod.mk.injEq .. ▸ h1
        subst hv
        simpa using hcond
      · exact ih k v h1

/-- Shape of a kept exported item: it came from a mapping, equals the cleaned
field list, is non-empty, and under `remove_zero` carries a center whose
coordinates are not both zero. -/
theorem export_item_spec (re rz : Bool) (it y : JValue)
    (h : DataManager.export_process_item re rz it = some (some y)) :
    ∃ ikvs, it = .obj ikvs ∧ y = .obj (DataManager.export_item_fields re ikvs) ∧
      DataManager.export_item_fields re ikvs ≠ [] ∧
      (rz = true → ∃ ckvs,
        DataManager.lookupKey (DataManager.export_item_fields re ikvs) "center" =
          some (.obj ckvs) ∧
        (DataManager.pyEqZero ((DataManager.lookupKey ckvs "lat").getD (.num 0)) &&
         DataManager.pyEqZero ((DataManager.lookupKey ckvs "lng").getD (.num 0))) = false) := by
  cases it <;> simp only [DataManager.export_process_item] at h
  case obj ikvs =>
    refine ⟨ikvs, rfl, ?_⟩
    split at h
    · -- remove_zero branch
      rename_i hrz
      split at h
      · rename_i ckvs hck
        split at h
        · simp at h
        · rename_i hz
          split at h
          · simp at h
          · rename_i hne
            simp only [Option.some.injEq] at h
            subst h
            refine ⟨rfl, by simpa [List.isEmpty_iff] using hne, fun _ => ⟨ckvs, hck, ?_⟩⟩
            simpa using hz
      · simp at h
      · simp at h
    · rename_i hrz
      split at h
      · simp at h
      · rename_i hne
        simp only [Option.some.injEq] at h
        subst h
        exact ⟨rfl, by simpa [List.isEmpty_iff] using hne,
          fun hc => absurd hc (by simpa using hrz)⟩
  all_goals simp at h

/-- Every item of a successful export loop came from some input item that
the per-item step kept. -/
theorem export_loop_mem (re rz : Bool) : ∀ xs ys : List JValue,
    DataManager.exportDataLoop re rz xs = some ys →
    ∀ y ∈ ys, ∃ x ∈ xs, DataManager.export_process_item re rz x = some (some y) := by
  intro xs
  induction xs with
  | nil =>
    intro ys h y hy
    simp only [DataManager.exportDataLoop, Option.some.injEq] at h
    subst h
    simp at hy
  | cons x rest ih =>
    intro ys h y hy
    simp only [DataManager.exportDataLoop, bind, Option.bind_eq_some, pure,
      Option.some.injEq] at h
    obtain ⟨r, hr, tail, htail, heq⟩ := h
    cases r with
    | some v =>
      rw [Option.some.injEq] at heq
      subst heq
      rcases List.mem_cons.mp hy with h1 | h1
      · subst h1
        exact ⟨x, List.mem_cons_self .., hr⟩
      · obtain ⟨x', hx', hpx'⟩ := ih tail htail y h1
        exact ⟨x', List.mem_cons_of_mem _ hx', hpx'⟩
    | none =>
      rw [Option.some.injEq] at heq
      subst heq
      obtain ⟨x', hx', hpx'⟩ := ih tail htail y hy
      exact ⟨x', List.mem_cons_of_mem _ hx', hpx'⟩

/-- `objSet` leaves other keys untouched. -/
theorem lookupKey_objSet_ne (kvs : List (String × JValue)) (k0 k : String) (v : JValue)
    (hne : k ≠ k0) :
    DataManager.lookupKey (DataManager.objSet kvs k0 v) k = DataManager.lookupKey kvs k := by
  have hne' : ¬(k0 = k) := fun h => hne h.symm
  induction kvs with
  | nil => simp [DataManager.objSet, DataManager.lookupKey, hne']
  | cons kv rest ih =>
    obtain ⟨k', v'⟩ := kv
    simp only [DataManager.objSet]
    split
    · rename_i hk'
      subst hk'
      simp [DataManager.lookupKey, hne']
    · simp only [DataManager.lookupKey]
      split
      · rfl
      · exact ih

/-- `objSet` stores the new value at its key. -/
theorem lookupKey_objSet_self (kvs : List (String × JValue)) (k0 : String) (v : JValue) :
    DataManager.lookupKey (DataManager.objSet kvs k0 v) k0 = some v := by
  induction kvs with
  | nil => simp [DataManager.objSet, DataManager.lookupKey]
  | cons kv rest ih =>
    obtain ⟨k', v'⟩ := kv
    simp only [DataManager.objSet]
    split
    · simp [DataManager.lookupKey]
    · rename_i hk'
      simp only [DataManager.lookupKey]
      split
      · exact absurd ‹k' = k0› hk'
      · exact ih

/-- C9: for every document (a mapping) whose export succeeds with
`remove_empty` on: every exported item is a non-empty mapping all of whose
kept values are non-empty (falsy-valued keys such as an empty `phone` are
omitted); with `remove_zero_coords` on, every exported item carries a center
whose coordinates are not both zero; and every top-level key other than
`data` (name, description, origin, filter) passes through unchanged. -/
theorem C9_prepare_export (kvs : List (String × JValue)) (rz : Bool) (e : JValue)
    (he : DataManager._prepare_export_data (.obj kvs) true rz = some e) :
    (∀ it ∈ jItems e, ∃ ikvs, it = .obj ikvs ∧ ikvs ≠ [] ∧
       (∀ k v, (k, v) ∈ ikvs → v.truthy = true) ∧
       (rz = true → ∃ ckvs, DataManager.lookupKey ikvs "center" = some (.obj ckvs) ∧
         (DataManager.pyEqZero ((DataManager.lookupKey ckvs "lat").getD (.num 0)) &&
          DataManager.pyEqZero ((DataManager.lookupKey ckvs "lng").getD (.num 0))) = false)) ∧
    (∀ k, k ≠ "data" → jGet e k = jGet (.obj kvs) k) := by
  simp only [DataManager._prepare_export_data] at he
  have key : ∃ xs cd, DataManager.exportDataLoop true rz xs = some cd ∧
      e = .obj (DataManager.objSet kvs "data" (.arr cd)) := by
    rcases hdl : DataManager.lookupKey kvs "data" with _ | dval
    · rw [hdl] at he
      dsimp only at he
      rw [Option.map_eq_some'] at he
      obtain ⟨cd, hcd, he2⟩ := he
      exact ⟨[], cd, hcd, he2.symm⟩
    · cases dval
      case arr xs =>
        rw [hdl] at he
        dsimp only at he
        rw [Option.map_eq_some'] at he
        obtain ⟨cd, hcd, he2⟩ := he
        exact ⟨xs, cd, hcd, he2.symm⟩
      all_goals rw [hdl] at he
      all_goals dsimp only at he
      all_goals exact absurd he (by simp)
  obtain ⟨xs, cd, hcd, he2⟩ := key
  subst he2
  constructor
  · intro it hit
    have hit' : it ∈ cd := by
      simpa [jItems, jGet, lookupKey_objSet_self] using hit
    obtain ⟨x, _, hpx⟩ := export_loop_mem true rz xs cd hcd it hit'
    obtain ⟨ikvs0, _, hy, hne, hcenter⟩ := export_item_spec true rz x it hpx
    exact ⟨DataManager.export_item_fields true ikvs0, hy, hne,
      export_fields_truthy ikvs0, hcenter⟩
  · intro k hk
    simp [jGet, lookupKey_objSet_ne _ _ _ _ hk]

set_option maxRecDepth 10000 in
/-- Witness for C9: the concrete export drops the zero-center item and the
empty phone field, and passes the metadata through. -/
theorem C9_witness :
    DataManager._prepare_export_data DOC_EXPORT true true = some EXPORTED ∧
    jGet EXPORTED "name" = jGet DOC_EXPORT "name" ∧
    jGet EXPORTED "filter" = jGet DOC_EXPORT "filter" :=
  ⟨rfl,
   (C9_prepare_export
     [("name", .str "n"), ("description", .str "d"), ("origin", .str "o"),
      ("filter", .obj [("inclusive", .obj []), ("exclusive", .obj [])]),
      ("data", .arr [
        .obj [("name", .str "x"), ("phone", .str ""),
              ("center", .obj [("lat", .num 0), ("lng", .num 0)])],
        .obj [("name", .str "y"), ("phone", .str "123"),
              ("center", .obj [("lat", .num 1), ("lng", .num 2)])]])]
     true EXPORTED rfl).2 "name" (by decide),
   (C9_prepare_export
     [("name", .str "n"), ("description", .str "d"), ("origin", .str "o"),
      ("filter", .obj [("inclusive", .obj []), ("exclusive", .obj [])]),
      ("data", .arr [
        .obj [("name", .str "x"), ("phone", .str ""),
              ("center", .obj [("lat", .num 0), ("lng", .num 0)])],
        .obj [("name", .str "y"), ("phone", .str "123"),
              ("center", .obj [("lat", .num 1), ("lng", .num 2)])]])]
     true EXPORTED rfl).2 "filter" (by decide)⟩

/-- On a meridian (equal longitudes), the haversine formula gives exactly
Earth radius times the latitude difference in radians, for spans below 180
degrees. -/
theorem calculate_distance_same_lng (lat1 lat2 lng : ℝ) (h1 : lat1 ≤ lat2)
    (h2 : lat2 - lat1 < 180) :
    MapUtils.calculate_distance lat1 lng lat2 lng =
      6371000 * MapUtils.radians (lat2 - lat1) := by
  have hpi := Real.pi_pos
  have hΔ0 : 0 ≤ lat2 - lat1 := sub_nonneg.mpr h1
  have hθeq : MapUtils.radians (lat2 - lat1) / 2 = (lat2 - lat1) * Real.pi / 360 := by
    unfold MapUtils.radians; ring
  have hθ0 : 0 ≤ MapUtils.radians (lat2 - lat1) / 2 := by
    rw [hθeq]; positivity
  have hθlt : MapUtils.radians (lat2 - lat1) / 2 < Real.pi / 2 := by
    rw [hθeq]
    have h3 : (lat2 - lat1) * Real.pi < 180 * Real.pi :=
      mul_lt_mul_of_pos_right h2 hpi
    linarith
  have hzero : MapUtils.radians (lng - lng) = 0 := by
    unfold MapUtils.radians; ring
  have hsinθ : 0 ≤ Real.sin (MapUtils.radians (lat2 - lat1) / 2) :=
    Real.sin_nonneg_of_nonneg_of_le_pi hθ0 (le_trans hθlt.le (by linarith))
  have hcosθ : 0 < Real.cos (MapUtils.radians (lat2 - lat1) / 2) :=
    Real.cos_pos_of_mem_Ioo ⟨by linarith, hθlt⟩
  have hsqrt1 : Real.sqrt (Real.sin (MapUtils.radians (lat2 - lat1) / 2) ^ 2) =
      Real.sin (MapUtils.radians (lat2 - lat1) / 2) := Real.sqrt_sq hsinθ
  have h1ma : 1 - Real.sin (MapUtils.radians (lat2 - lat1) / 2) ^ 2 =
      Real.cos (MapUtils.radians (lat2 - lat1) / 2) ^ 2 := by
    have := Real.sin_sq_add_cos_sq (MapUtils.radians (lat2 - lat1) / 2)
    linarith
  have hsqrt2 : Real.sqrt (1 - Real.sin (MapUtils.radians (lat2 - lat1) / 2) ^ 2) =
      Real.cos (MapUtils.radians (lat2 - lat1) / 2) := by
    rw [h1ma]; exact Real.sqrt_sq hcosθ.le
  have hatan : MapUtils.atan2 (Real.sin (MapUtils.radians (lat2 - lat1) / 2))
      (Real.cos (MapUtils.radians (lat2 - lat1) / 2)) = MapUtils.radians (lat2 - lat1) / 2 := by
    unfold MapUtils.atan2
    rw [if_pos hcosθ, ← Real.tan_eq_sin_div_cos]
    exact Real.arctan_tan (by linarith) hθlt
  simp only [MapUtils.calculate_distance]
  rw [hzero]
  norm_num
  rw [hsqrt1, hsqrt2, hatan]
  ring

/-- On a key-sorted table, the ascending first-covering scan returns exactly
the least covering level. -/
theorem zoomScan_eq_least : ∀ l : List (ℕ × ℝ), l.Pairwise (fun a b => a.1 < b.1) →
    ∀ (d : ℝ) (L : ℕ),
      (∃ c, (L, c) ∈ l ∧ d ≤ c) →
      (∀ L' c', (L', c') ∈ l → d ≤ c' → L ≤ L') →
      MapUtils.zoomScan d l = some L := by
  intro l
  induction l with
  | nil =>
    intro _ d L hex _
    obtain ⟨c, hc, _⟩ := hex
    simp at hc
  | cons head rest ih =>
    intro hpw d L hex hmin
    obtain ⟨c, hc, hdc⟩ := hex
    obtain ⟨z0, c0⟩ := head
    simp only [MapUtils.zoomScan]
    by_cases hcov : d ≤ c0
    · rw [if_pos hcov]
      have hLle : L ≤ z0 := hmin z0 c0 (List.mem_cons_self _ _) hcov
      rcases List.mem_cons.mp hc with hh | ht
      · have h1 : L = z0 := congrArg Prod.fst hh
        rw [h1]
      · have h2 : z0 < L := (List.pairwise_cons.mp hpw).1 (L, c) ht
        omega
    · rw [if_neg hcov]
      apply ih (List.Pairwise.of_cons hpw) d L
      · refine ⟨c, ?_, hdc⟩
        rcases List.mem_cons.mp hc with hh | ht
        · have h1 : c = c0 := congrArg Prod.snd hh
          rw [h1] at hdc
          exact absurd hdc hcov
        · exact ht
      · exact fun L' c' h' hd' => hmin L' c' (List.mem_cons_of_mem _ h') hd'

/-- The zoom table's keys are strictly ascending. -/
theorem zoom_table_sorted : MapUtils.ZOOM_DISTANCE_MAP.Pairwise (fun a b => a.1 < b.1) := by
  norm_num [MapUtils.ZOOM_DISTANCE_MAP, List.pairwise_cons]

/-- Every level of the zoom table is at least 3. -/
theorem zoom_keys_ge_three (L' : ℕ) (c' : ℝ) (h : (L', c') ∈ MapUtils.ZOOM_DISTANCE_MAP) :
    3 ≤ L' := by
  have hk : L' ∈ MapUtils.ZOOM_DISTANCE_MAP.map Prod.fst := List.mem_map_of_mem _ h
  simp [MapUtils.ZOOM_DISTANCE_MAP] at hk
  omega

/-- Every fully-valid point passes the laxer non-zero-latitude filter. -/
theorem validPoints_length_le (pts : List MapUtils.MapPoint) :
    (MapUtils.validPoints pts).length ≤ (MapUtils.latNonzeroPoints pts).length := by
  induction pts with
  | nil => simp [MapUtils.validPoints, MapUtils.latNonzeroPoints]
  | cons p ps ih =>
    simp only [MapUtils.validPoints, MapUtils.latNonzeroPoints]
    by_cases hv : MapUtils.validCoord p
    · rw [if_pos hv, if_pos hv.1]
      simpa using ih
    · rw [if_neg hv]
      by_cases hl : p.lat ≠ 0
      · rw [if_pos hl]
        exact le_trans ih (by simp)
      · rw [if_neg hl]
        exact ih

/-- C1: the zoom table runs over levels 3..20 with capacities decreasing from
1,000,000 m to 5 m, and for every point list with at least two valid points,
`calculate_zoom_level` with padding factor 1.5 computes the bounding box's
diagonal haversine distance, multiplies it by the padding factor, and
returns the smallest level of the table whose capacity still covers that
required distance, floored at level 10. -/
theorem C1_zoom_smallest_covering_level :
    (MapUtils.ZOOM_DISTANCE_MAP.map Prod.fst =
      [3, 4, 5, 6, 7, 8, 9, 10, 11, 12, 13, 14, 15, 16, 17, 18, 19, 20]) ∧
    (MapUtils.ZOOM_DISTANCE_MAP.map Prod.snd).Chain' (· > ·) ∧
    (MapUtils.ZOOM_DISTANCE_MAP.map Prod.snd).head? = some 1000000 ∧
    (MapUtils.ZOOM_DISTANCE_MAP.map Prod.snd).getLast? = some 5 ∧
    ∀ (pts : List MapUtils.MapPoint) (b : MapUtils.BoundsBox) (L : ℕ),
      MapUtils.calculate_bounds pts = some b →
      2 ≤ (MapUtils.validPoints pts).length →
      IsLeastCoveringLevel
        (MapUtils.calculate_distance b.min_lat b.min_lng b.max_lat b.max_lng * 1.5) L →
      MapUtils.calculate_zoom_level pts 1.5 = max 10 (L : ℤ) := by
  refine ⟨rfl, by norm_num [MapUtils.ZOOM_DISTANCE_MAP, List.chain'_cons], rfl, rfl, ?_⟩
  intro pts b L hb h2 hL
  have hlen : 2 ≤ (MapUtils.latNonzeroPoints pts).length :=
    le_trans h2 (validPoints_length_le pts)
  simp only [MapUtils.calculate_zoom_level]
  rw [hb]
  dsimp only
  rw [if_neg (by omega)]
  rw [zoomScan_eq_least MapUtils.ZOOM_DISTANCE_MAP zoom_table_sorted _ L hL.1 hL.2]

/-- `P30` is a valid point. -/
theorem valid_P30 : MapUtils.validCoord P30 := by
  norm_num [MapUtils.validCoord, P30]

/-- `P309` is a valid point. -/
theorem valid_P309 : MapUtils.validCoord P309 := by
  norm_num [MapUtils.validCoord, P309]

/-- Both points of the 100 km pair survive the validity filter. -/
theorem vp_PTS100KM : MapUtils.validPoints PTS100KM = [P30, P309] := by
  simp only [PTS100KM, MapUtils.validPoints, if_pos valid_P30, if_pos valid_P309]

/-- The bounding box of the 100 km pair. -/
theorem bounds_PTS100KM : MapUtils.calculate_bounds PTS100KM = some BOUNDS100KM := by
  simp only [MapUtils.calculate_bounds, vp_PTS100KM]
  norm_num [P30, P309, BOUNDS100KM, min_def, max_def]

/-- The padded meridian diagonal of the 100 km pair is within the level-3
capacity. -/
theorem required_PTS100KM :
    MapUtils.calculate_distance 30 121 30.9 121 * 1.5 ≤ 1000000 := by
  rw [calculate_distance_same_lng 30 30.9 121 (by norm_num) (by norm_num)]
  unfold MapUtils.radians
  ring_nf
  nlinarith [Real.pi_le_four, Real.pi_pos]

/-- Level 3 is the least covering level for the 100 km pair's padded
diagonal. -/
theorem least_PTS100KM :
    IsLeastCoveringLevel (MapUtils.calculate_distance 30 121 30.9 121 * 1.5) 3 := by
  constructor
  · exact ⟨1000000, by simp [MapUtils.ZOOM_DISTANCE_MAP], required_PTS100KM⟩
  · exact fun L' c' hm _ => zoom_keys_ge_three L' c' hm

/-- Witness for C1 at the concrete 100 km pair: two valid points, and the
zoom level is the floored least covering level, 10. -/
theorem C1_witness :
    2 ≤ (MapUtils.validPoints PTS100KM).length ∧
    MapUtils.calculate_zoom_level PTS100KM 1.5 = max 10 (3 : ℤ) :=
  ⟨by rw [vp_PTS100KM]; norm_num,
   C1_zoom_smallest_covering_level.2.2.2.2 PTS100KM BOUNDS100KM 3 bounds_PTS100KM
     (by rw [vp_PTS100KM]; norm_num) least_PTS100KM⟩

/-- Whenever the bounding box exists, at least two points pass the lax
filter, and the padded diagonal is within the level-3 capacity, the zoom
level is 10: the ascending scan accepts level 3 at once and the result is
floored to 10. -/
theorem zoom_ten_of_padded_le (pts : List MapUtils.MapPoint) (b : MapUtils.BoundsBox)
    (hb : MapUtils.calculate_bounds pts = some b)
    (hlen : 2 ≤ (MapUtils.latNonzeroPoints pts).length)
    (hreq : MapUtils.calculate_distance b.min_lat b.min_lng b.max_lat b.max_lng * 1.5 ≤
      1000000) :
    MapUtils.calculate_zoom_level pts 1.5 = 10 := by
  simp only [MapUtils.calculate_zoom_level]
  rw [hb]
  dsimp only
  rw [if_neg (by omega)]
  simp only [MapUtils.ZOOM_DISTANCE_MAP, MapUtils.zoomScan]
  rw [if_pos hreq]
  norm_num

/-- `P30M` is a valid point. -/
theorem valid_P30M : MapUtils.validCoord P30M := by
  norm_num [MapUtils.validCoord, P30M]

/-- `PBAD` fails the validity filter (latitude out of range). -/
theorem not_valid_PBAD : ¬ MapUtils.validCoord PBAD := by
  norm_num [MapUtils.validCoord, PBAD]

/-- Both points of the 100 m pair survive the validity filter. -/
theorem vp_PTS100M : MapUtils.validPoints PTS100M = [P30, P30M] := by
  simp only [PTS100M, MapUtils.validPoints, if_pos valid_P30, if_pos valid_P30M]

/-- The bounding box of the 100 m pair. -/
theorem bounds_PTS100M :
    MapUtils.calculate_bounds PTS100M = some ⟨30, 30.0009, 121, 121⟩ := by
  simp only [MapUtils.calculate_bounds, vp_PTS100M]
  norm_num [P30, P30M, min_def, max_def]

/-- Only `P30` survives the validity filter in `PTS_ONEVALID`. -/
theorem vp_PTS_ONEVALID : MapUtils.validPoints PTS_ONEVALID = [P30] := by
  simp only [PTS_ONEVALID, MapUtils.validPoints, if_pos valid_P30, if_neg not_valid_PBAD]

/-- The bounding box of `PTS_ONEVALID` collapses to the single valid point. -/
theorem bounds_PTS_ONEVALID :
    MapUtils.calculate_bounds PTS_ONEVALID = some ⟨30, 30, 121, 121⟩ := by
  simp only [MapUtils.calculate_bounds, vp_PTS_ONEVALID]
  norm_num [P30]

/-- Both points of `PTS_ONEVALID` pass the lax non-zero-latitude filter. -/
theorem latnz_PTS_ONEVALID :
    MapUtils.latNonzeroPoints PTS_ONEVALID = [P30, PBAD] := by
  simp only [PTS_ONEVALID, MapUtils.latNonzeroPoints]
  rw [if_pos (by norm_num [P30]), if_pos (by norm_num [PBAD])]

/-- The lax filter keeps both points of the 100 km pair. -/
theorem latnz_PTS100KM : MapUtils.latNonzeroPoints PTS100KM = [P30, P309] := by
  simp only [PTS100KM, MapUtils.latNonzeroPoints]
  rw [if_pos (by norm_num [P30]), if_pos (by norm_num [P309])]

/-- The lax filter keeps both points of the 100 m pair. -/
theorem latnz_PTS100M : MapUtils.latNonzeroPoints PTS100M = [P30, P30M] := by
  simp only [PTS100M, MapUtils.latNonzeroPoints]
  rw [if_pos (by norm_num [P30]), if_pos (by norm_num [P30M])]

/-- The padded meridian diagonal of the 100 m pair is within the level-3
capacity. -/
theorem required_PTS100M :
    MapUtils.calculate_distance 30 121 30.0009 121 * 1.5 ≤ 1000000 := by
  rw [calculate_distance_same_lng 30 30.0009 121 (by norm_num) (by norm_num)]
  unfold MapUtils.radians
  ring_nf
  nlinarith [Real.pi_le_four, Real.pi_pos]

/-- The degenerate diagonal of `PTS_ONEVALID` is zero, within the level-3
capacity. -/
theorem required_PTS_ONEVALID :
    MapUtils.calculate_distance 30 121 30 121 * 1.5 ≤ 1000000 := by
  rw [calculate_distance_same_lng 30 30 121 (by norm_num) (by norm_num)]
  unfold MapUtils.radians
  norm_num

/-- The meridian pair at 0.9 degrees is about 100 km apart (between 100000
and 100100 m). -/
theorem dist_PTS100KM_interval :
    100000 ≤ MapUtils.calculate_distance 30 121 30.9 121 ∧
    MapUtils.calculate_distance 30 121 30.9 121 ≤ 100100 := by
  rw [calculate_distance_same_lng 30 30.9 121 (by norm_num) (by norm_num)]
  unfold MapUtils.radians
  constructor <;> nlinarith [Real.pi_gt_d6, Real.pi_lt_d6]

/-- The meridian pair at 0.0009 degrees is about 100 m apart (between 100
and 100.1 m). -/
theorem dist_PTS100M_interval :
    100 ≤ MapUtils.calculate_distance 30 121 30.0009 121 ∧
    MapUtils.calculate_distance 30 121 30.0009 121 ≤ 100.1 := by
  rw [calculate_distance_same_lng 30 30.0009 121 (by norm_num) (by norm_num)]
  unfold MapUtils.radians
  constructor <;> nlinarith [Real.pi_gt_d6, Real.pi_lt_d6]

/-- C8 counterexample: a list with exactly one valid point gets base zoom 10,
not 16 (the out-of-range second point still passes the lax non-zero-latitude
filter), and the two-point pairs about 100 km and about 100 m apart get the
same base zoom 10, so the 100 km pair's zoom is not strictly lower. -/
theorem C8_counterexample :
    ((MapUtils.validPoints PTS_ONEVALID).length = 1 ∧
     MapUtils.calculate_zoom_level PTS_ONEVALID 1.5 = 10) ∧
    (100000 ≤ MapUtils.calculate_distance 30 121 30.9 121 ∧
     MapUtils.calculate_distance 30 121 30.9 121 ≤ 100100) ∧
    (100 ≤ MapUtils.calculate_distance 30 121 30.0009 121 ∧
     MapUtils.calculate_distance 30 121 30.0009 121 ≤ 100.1) ∧
    MapUtils.calculate_zoom_level PTS100KM 1.5 = 10 ∧
    MapUtils.calculate_zoom_level PTS100M 1.5 = 10 ∧
    ¬(MapUtils.calculate_zoom_level PTS100KM 1.5 <
      MapUtils.calculate_zoom_level PTS100M 1.5) := by
  have h1 : MapUtils.calculate_zoom_level PTS_ONEVALID 1.5 = 10 :=
    zoom_ten_of_padded_le PTS_ONEVALID ⟨30, 30, 121, 121⟩ bounds_PTS_ONEVALID
      (by rw [latnz_PTS_ONEVALID]; norm_num) required_PTS_ONEVALID
  have h2 : MapUtils.calculate_zoom_level PTS100KM 1.5 = 10 :=
    zoom_ten_of_padded_le PTS100KM BOUNDS100KM bounds_PTS100KM
      (by rw [latnz_PTS100KM]; norm_num) required_PTS100KM
  have h3 : MapUtils.calculate_zoom_level PTS100M 1.5 = 10 :=
    zoom_ten_of_padded_le PTS100M ⟨30, 30.0009, 121, 121⟩ bounds_PTS100M
      (by rw [latnz_PTS100M]; norm_num) required_PTS100M
  refine ⟨⟨by rw [vp_PTS_ONEVALID]; rfl, h1⟩, dist_PTS100KM_interval,
    dist_PTS100M_interval, h2, h3, ?_⟩
  rw [h2, h3]
  omega

/-- C8 amended: with zero valid points the viewport center is the fixed
fallback (Shanghai) and the base zoom is 15; with at least one valid point
and at most one point of non-zero latitude the base zoom is 16 (the claim's
"exactly one valid point" case needs every extra invalid point to have
latitude 0, since the 16-branch uses the laxer filter); and for any bounded
list with two or more non-zero-latitude points whose padded diagonal is at
most 1,000,000 m — which covers both a pair 100 km apart and a pair 100 m
apart — the base zoom is exactly 10, so the two are equal rather than
strictly ordered. -/
theorem C8_degenerate_cases :
    (∀ pts : List MapUtils.MapPoint, MapUtils.validPoints pts = [] →
      (MapUtils.calculate_map_config pts 0 (-1) 5).1 = ⟨31.230416, 121.473701⟩ ∧
      MapUtils.calculate_zoom_level pts 1.5 = 15) ∧
    (∀ pts : List MapUtils.MapPoint, MapUtils.validPoints pts ≠ [] →
      (MapUtils.latNonzeroPoints pts).length ≤ 1 →
      MapUtils.calculate_zoom_level pts 1.5 = 16) ∧
    (∀ (pts : List MapUtils.MapPoint) (b : MapUtils.BoundsBox),
      MapUtils.calculate_bounds pts = some b →
      2 ≤ (MapUtils.latNonzeroPoints pts).length →
      MapUtils.calculate_distance b.min_lat b.min_lng b.max_lat b.max_lng * 1.5 ≤ 1000000 →
      MapUtils.calculate_zoom_level pts 1.5 = 10) := by
  refine ⟨?_, ?_, fun pts b hb hlen hreq => zoom_ten_of_padded_le pts b hb hlen hreq⟩
  · intro pts h0
    constructor
    · simp only [MapUtils.calculate_map_config, MapUtils.calculate_center, h0]
      rfl
    · simp only [MapUtils.calculate_zoom_level, MapUtils.calculate_bounds, h0]
  · intro pts hne hle
    rcases hvp : MapUtils.validPoints pts with _ | ⟨p, ps⟩
    · exact absurd hvp hne
    · simp only [MapUtils.calculate_zoom_level, MapUtils.calculate_bounds, hvp]
      rw [if_pos hle]

/-- Witness for the amended C8: the empty list gives the fallback center and
base zoom 15, a single valid point gives 16, and the 100 km pair gives 10. -/
theorem C8_witness :
    ((MapUtils.calculate_map_config [] 0 (-1) 5).1 = ⟨31.230416, 121.473701⟩ ∧
     MapUtils.calculate_zoom_level [] 1.5 = 15) ∧
    MapUtils.calculate_zoom_level [P30] 1.5 = 16 ∧
    MapUtils.calculate_zoom_level PTS100KM 1.5 = 10 :=
  ⟨C8_degenerate_cases.1 [] rfl,
   C8_degenerate_cases.2.1 [P30]
     (by simp [MapUtils.validPoints, if_pos valid_P30])
     (by simp only [MapUtils.latNonzeroPoints]
         rw [if_pos (by norm_num [P30])]
         simp [MapUtils.latNonzeroPoints]),
   C8_degenerate_cases.2.2 PTS100KM BOUNDS100KM bounds_PTS100KM
     (by rw [latnz_PTS100KM]; norm_num) required_PTS100KM⟩
